import Mathlib

/-!
# Verification of the light-pollution backend (src/app.py)

Shallow embedding of the derived-metric pipeline of the Flask backend:
external signal adapters, the metric aggregator
`calculate_pollution_from_nasa`, the inline classifier used by
`get_cities` and `analyze_city`, the historical projector
`generate_historical_data`, the recommendation generator, and the two
JSON routes the claims mention.

Python floats are modelled as rationals, `random.uniform` /
`random.randint` draws as explicit oracle parameters constrained by the
contract of the sampler, and network interactions as explicit outcome values
(an exception anywhere inside a `try` block and a non-200 status are the
failure cases the adapters handle).
-/

set_option autoImplicit false

namespace LightPollution

/-- A JSON-like value, the shape of every route/adapter response. -/
inductive JVal where
  | null
  | bool (b : Bool)
  | num (q : ℚ)
  | str (s : String)
  | arr (xs : List JVal)
  | obj (fields : List (String × JVal))

/-- Whether a JSON value is an object carrying the given key. -/
def JVal.hasField : JVal → String → Bool
  | .obj fields, k => fields.any (fun p => p.1 = k)
  | _, _ => false

/-- One entry of the `PERU_CITIES` reference table (src/app.py lines 13-38). -/
structure City where
  id : String
  name : String
  coords : ℚ × ℚ
  population : ℕ
  region : String
  deriving DecidableEq, Repr

/-- The `PERU_CITIES` dict, in its insertion order. -/
def PERU_CITIES : List City :=
  [ { id := "lima", name := "Lima Metropolitana",
      coords := (-120464/10000, -770428/10000),
      population := 11000000, region := "Lima" },
    { id := "huanuco", name := "Huánuco",
      coords := (-99295/10000, -762397/10000),
      population := 196000, region := "Huánuco" },
    { id := "cusco", name := "Cusco",
      coords := (-135319/10000, -719675/10000),
      population := 500000, region := "Cusco" },
    { id := "arequipa", name := "Arequipa",
      coords := (-164090/10000, -715375/10000),
      population := 1100000, region := "Arequipa" } ]

/-- `city_id in PERU_CITIES` (dict-key membership). -/
def lookupCity (city_id : String) : Option City :=
  PERU_CITIES.find? (fun c => c.id = city_id)

/-- Round half to even on a rational, the idealisation of Python 3 `round`. -/
def roundHalfEven (q : ℚ) : ℤ :=
  let f := Int.floor q
  let r := q - (f : ℚ)
  if r < 1/2 then f
  else if 1/2 < r then f + 1
  else if f % 2 = 0 then f else f + 1

/-- Python `round(x, 3)`: round to 3 decimal places, half to even. -/
def roundTo3 (q : ℚ) : ℚ := (roundHalfEven (q * 1000) : ℚ) / 1000

/-- The `base_data` dict lookup with default, from
`calculate_pollution_from_nasa` (src/app.py lines 137-144):
`base_data.get(city_id, {"base": 0.5, "growth": 0.02})`,
returned as the (base, growth) pair. -/
def base_data_get (city_id : String) : ℚ × ℚ :=
  if city_id = "lima" then (65/100, 4/100)
  else if city_id = "huanuco" then (38/100, 1/100)
  else if city_id = "cusco" then (45/100, 3/100)
  else if city_id = "arequipa" then (55/100, 35/1000)
  else (1/2, 2/100)

/-- `calculate_pollution_from_nasa` (src/app.py lines 135-154).
`weather_impact` stands for the `random.uniform(-0.03, 0.03)` draw. -/
def calculate_pollution_from_nasa (city_id : String) (nasa_events : List JVal)
    (weather_impact : ℚ) : ℚ × ℚ :=
  let base := (base_data_get city_id).1
  let event_impact : ℚ := (nasa_events.length : ℚ) * (15/1000)
  let blue_ratio0 := base + event_impact + weather_impact
  let blue_ratio := max (2/10) (min (8/10) blue_ratio0)
  let orange_ratio := 1 - blue_ratio
  (blue_ratio, orange_ratio)

/-- The status/score classification block duplicated at src/app.py
lines 194-202 (`get_cities`) and 232-240 (`analyze_city`).
`rint` stands for `random.randint` applied to the chosen band. -/
def determine_status (blue_ratio : ℚ) (rint : ℕ → ℕ → ℕ) : String × ℕ :=
  if blue_ratio > 6/10 then ("CRÍTICO", rint 20 40)
  else if blue_ratio > 45/100 then ("MODERADO", rint 41 69)
  else ("SALUDABLE", rint 70 85)

/-- The `trends` dict lookup with default, from `generate_historical_data`
(src/app.py lines 273-278): `trends.get(city_id, 0.02)`. -/
def trends_get (city_id : String) : ℚ :=
  if city_id = "lima" then 4/100
  else if city_id = "huanuco" then 1/100
  else if city_id = "cusco" then 3/100
  else if city_id = "arequipa" then 35/1000
  else 2/100

/-- One element of the list built by `generate_historical_data`. -/
structure HistEntry where
  year : ℕ
  blue_ratio : ℚ
  orange_ratio : ℚ
  deriving DecidableEq, Repr

/-- `generate_historical_data` (src/app.py lines 268-291). -/
def generate_historical_data (city_id : String)
    (current_blue current_orange : ℚ) : List HistEntry :=
  let trend := trends_get city_id
  [2020, 2021, 2022, 2023].map (fun year =>
    let years_ago : ℕ := 2023 - year
    { year := year,
      blue_ratio := roundTo3 (max (1/10) (current_blue - (years_ago : ℚ) * trend)),
      orange_ratio := roundTo3 (min (8/10) (current_orange + (years_ago : ℚ) * trend)) })

/-- `generate_recommendations` (src/app.py lines 293-315). -/
def generate_recommendations (status : String) (city_name : String) : List String :=
  if status = "CRÍTICO" then
    [ "URGENTE: Reemplazar 50% de LED azules en " ++ city_name,
      "Implementar norma técnica NASA-compatible",
      "Crear zonas de protección de cielo oscuro",
      "Sistema de monitoreo continuo con datos satelitales" ]
  else if status = "MODERADO" then
    [ "Plan de transición a LED NASA-recomendados en " ++ city_name,
      "Monitoreo mensual con Earth Imagery API",
      "Educación sobre estándares internacionales",
      "Participar en programa NASA \x27Dark Sky Cities\x27" ]
  else
    [ "¡Excelente! " ++ city_name ++ " cumple estándares NASA",
      "Mantener certificación \x27NASA Dark Sky Friendly\x27",
      "Compartir prácticas con Red Global NASA",
      "Implementar observatorio ciudadano" ]

/-- Parsed JSON body of a 200 response of the astronomy-picture API;
`data.get` on an absent key yields `none`. -/
structure ApodData where
  title : Option String
  url : Option String
  thumbnail_url : Option String
  explanation : Option String
  date : Option String

/-- Outcome of the outbound call inside the APOD try block: either an
exception (timeout, transport or parsing error), or an HTTP response with
its status code and parsed body. -/
inductive ApodOutcome where
  | failure
  | http (status : ℕ) (data : ApodData)

/-- A Python optional string rendered to JSON (`None` becomes null). -/
def jsonOptStr : Option String → JVal
  | none => JVal.null
  | some s => JVal.str s

/-- Python `a or b` on optional strings: `None` and `""` are falsy. -/
def pyOrStr (a b : Option String) : JVal :=
  match a with
  | some s => if s = "" then jsonOptStr b else JVal.str s
  | none => jsonOptStr b

/-- `get_nasa_apod` (src/app.py lines 40-59). -/
def get_nasa_apod : ApodOutcome → JVal
  | .failure => JVal.obj [("success", JVal.bool false)]
  | .http status data =>
    if status = 200 then
      JVal.obj
        [ ("title", JVal.str (data.title.getD "NASA Astronomy Picture")),
          ("url", pyOrStr data.url data.thumbnail_url),
          ("explanation", JVal.str ((data.explanation.getD "").take 200 ++ "...")),
          ("date", JVal.str (data.date.getD "")),
          ("success", JVal.bool true) ]
    else JVal.obj [("success", JVal.bool false)]

/-- One upstream EONET event as the adapter reads it: `event[\x27title\x27]`,
`event[\x27geometry\x27][0][\x27date\x27]`, `event[\x27categories\x27][0][\x27title\x27]`
(a missing key raises and lands in the failure outcome). -/
structure RawEvent where
  title : String
  date : String
  category : String

/-- Outcome of the outbound call inside the EONET try block. -/
inductive EventsOutcome where
  | failure
  | http (status : ℕ) (events : List RawEvent)

/-- `get_nasa_events` (src/app.py lines 61-78). -/
def get_nasa_events : EventsOutcome → List JVal
  | .failure => []
  | .http status events =>
    if status = 200 then
      (events.take 3).map (fun e =>
        JVal.obj
          [ ("title", JVal.str e.title),
            ("date", JVal.str (e.date.take 10)),
            ("category", JVal.str e.category) ])
    else []

/-- Outcome of the outbound call inside the earth-imagery try block;
on success it carries `response.url`. -/
inductive ImageryOutcome where
  | failure
  | http (status : ℕ) (url : String)

/-- `get_earth_imagery` (src/app.py lines 80-98); the coordinates only
shape the outbound request, which the outcome already reflects. -/
def get_earth_imagery (_city_coords : ℚ × ℚ) : ImageryOutcome → JVal
  | .failure => JVal.obj [("available", JVal.bool false)]
  | .http status url =>
    if status = 200 then
      JVal.obj [("available", JVal.bool true), ("url", JVal.str url)]
    else JVal.obj [("available", JVal.bool false)]

/-- Outcome of the outbound call inside the NEO-feed try block: the
`near_earth_objects` mapping from date keys to object lists. -/
inductive NeoOutcome where
  | failure
  | http (status : ℕ) (near_earth_objects : List (String × List JVal))

/-- `get_asteroid_data` (src/app.py lines 100-124); `today` is the
`datetime.now()` date string. -/
def get_asteroid_data (today : String) : NeoOutcome → JVal
  | .failure => JVal.obj [("success", JVal.bool false), ("count", JVal.num 0)]
  | .http status neo =>
    if status = 200 then
      JVal.obj
        [ ("count", JVal.num (((neo.map (fun p => p.2.length)).sum : ℕ) : ℚ)),
          ("date", JVal.str today),
          ("success", JVal.bool true) ]
    else JVal.obj [("success", JVal.bool false), ("count", JVal.num 0)]

/-- `get_mars_weather` (src/app.py lines 126-133); the three draws of the
synthetic generator are passed in explicitly. -/
def get_mars_weather (temp : ℤ) (season : String) (pressure : ℕ) : JVal :=
  JVal.obj
    [ ("temp", JVal.num (temp : ℚ)),
      ("season", JVal.str season),
      ("pressure", JVal.num (pressure : ℚ)),
      ("success", JVal.bool true) ]

/-- One element of the `/api/cities` response array. -/
structure CityEntry where
  id : String
  name : String
  region : String
  status : String
  health_score : ℕ
  events_affecting : ℕ
  deriving DecidableEq, Repr

/-- The `/api/cities` route `get_cities` (src/app.py lines 184-213).
The event adapter is invoked once on `events_outcome`; `noise` and `rint`
supply the per-city `random.uniform` and `random.randint` draws. -/
def get_cities (events_outcome : EventsOutcome) (noise : String → ℚ)
    (rint : String → ℕ → ℕ → ℕ) : List CityEntry :=
  let nasa_events := get_nasa_events events_outcome
  PERU_CITIES.map (fun city_info =>
    let ratios := calculate_pollution_from_nasa city_info.id nasa_events (noise city_info.id)
    let st := determine_status ratios.1 (rint city_info.id)
    { id := city_info.id, name := city_info.name, region := city_info.region,
      status := st.1, health_score := st.2,
      events_affecting := nasa_events.length })

/-- The per-request nondeterminism of `analyze_city`: the four upstream
outcomes, the clock reads and the random draws. -/
structure RequestOracles where
  events : EventsOutcome
  apod : ApodOutcome
  imagery : ImageryOutcome
  neo : NeoOutcome
  today : String
  mars_temp : ℤ
  mars_season : String
  mars_pressure : ℕ
  weather_impact : ℚ
  rint : ℕ → ℕ → ℕ
  now : String

/-- Rendering of the `generate_historical_data` result inside the
`analyze_city` response. -/
def histToJson (h : List HistEntry) : JVal :=
  JVal.arr (h.map (fun e =>
    JVal.obj
      [ ("year", JVal.num (e.year : ℚ)),
        ("blue_ratio", JVal.num e.blue_ratio),
        ("orange_ratio", JVal.num e.orange_ratio) ]))

/-- The `/api/analyze/<city_id>` route `analyze_city`
(src/app.py lines 215-266), returning the HTTP status and JSON body. -/
def analyze_city (city_id : String) (o : RequestOracles) : ℕ × JVal :=
  match lookupCity city_id with
  | none => (404, JVal.obj [("error", JVal.str "Ciudad no encontrada")])
  | some city_data =>
    let nasa_events := get_nasa_events o.events
    let apod_data := get_nasa_apod o.apod
    let earth_imagery := get_earth_imagery city_data.coords o.imagery
    let asteroid_data := get_asteroid_data o.today o.neo
    let mars_weather := get_mars_weather o.mars_temp o.mars_season o.mars_pressure
    let ratios := calculate_pollution_from_nasa city_id nasa_events o.weather_impact
    let st := determine_status ratios.1 o.rint
    (200, JVal.obj
      [ ("city_info", JVal.obj
          [ ("name", JVal.str city_data.name),
            ("region", JVal.str city_data.region),
            ("population", JVal.num (city_data.population : ℚ)),
            ("coordinates", JVal.arr [JVal.num city_data.coords.1, JVal.num city_data.coords.2]),
            ("description", JVal.str ("Monitoreo de contaminación lumínica en " ++ city_data.name)) ]),
        ("pollution_analysis", JVal.obj
          [ ("status", JVal.str st.1),
            ("health_score", JVal.num (st.2 : ℚ)),
            ("blue_ratio", JVal.num (roundTo3 ratios.1)),
            ("orange_ratio", JVal.num (roundTo3 ratios.2)),
            ("last_updated", JVal.str o.now) ]),
        ("nasa_data", JVal.obj
          [ ("apod", apod_data),
            ("events", JVal.arr nasa_events),
            ("earth_imagery", earth_imagery),
            ("asteroids", asteroid_data),
            ("mars_weather", mars_weather) ]),
        ("historical_data", histToJson (generate_historical_data city_id ratios.1 ratios.2)),
        ("recommendations", JVal.arr ((generate_recommendations st.1 city_data.name).map JVal.str)) ])

/-!
## Theorems
-/

/-- Claim C1: for every city identifier (known or unknown), every event
list, and every perturbation drawn in [-0.03, 0.03], the pair returned by
`calculate_pollution_from_nasa` satisfies
0.2 ≤ blue_ratio ≤ 0.8 and orange_ratio = 1 - blue_ratio exactly. -/
theorem aggregator_bounds (city_id : String) (nasa_events : List JVal) (w : ℚ)
    (hw1 : -(3/100) ≤ w) (hw2 : w ≤ 3/100) :
    2/10 ≤ (calculate_pollution_from_nasa city_id nasa_events w).1 ∧
    (calculate_pollution_from_nasa city_id nasa_events w).1 ≤ 8/10 ∧
    (calculate_pollution_from_nasa city_id nasa_events w).2 =
      1 - (calculate_pollution_from_nasa city_id nasa_events w).1 :=
  ⟨le_max_left _ _, max_le (by norm_num) (min_le_left _ _), rfl⟩

/-- Witness for `aggregator_bounds` at city "lima", no events, zero noise. -/
theorem aggregator_bounds_witness :
    (-(3/100) ≤ (0:ℚ)) ∧ ((0:ℚ) ≤ 3/100) ∧
    (2/10 ≤ (calculate_pollution_from_nasa "lima" [] 0).1 ∧
     (calculate_pollution_from_nasa "lima" [] 0).1 ≤ 8/10 ∧
     (calculate_pollution_from_nasa "lima" [] 0).2 =
       1 - (calculate_pollution_from_nasa "lima" [] 0).1) :=
  ⟨by norm_num, by norm_num, aggregator_bounds "lima" [] 0 (by norm_num) (by norm_num)⟩

/-- Claim C8: the orange_ratio returned by the aggregator also lies in
[0.2, 0.8], inherited from the clamp on blue_ratio through
orange = 1 - blue. -/
theorem aggregator_orange_bounds (city_id : String) (nasa_events : List JVal) (w : ℚ) :
    2/10 ≤ (calculate_pollution_from_nasa city_id nasa_events w).2 ∧
    (calculate_pollution_from_nasa city_id nasa_events w).2 ≤ 8/10 := by
  have h1 : (2:ℚ)/10 ≤ (calculate_pollution_from_nasa city_id nasa_events w).1 :=
    le_max_left _ _
  have h2 : (calculate_pollution_from_nasa city_id nasa_events w).1 ≤ 8/10 :=
    max_le (by norm_num) (min_le_left _ _)
  have h3 : (calculate_pollution_from_nasa city_id nasa_events w).2 =
      1 - (calculate_pollution_from_nasa city_id nasa_events w).1 := rfl
  rw [h3]
  constructor <;> linarith

/-- Claim C7: for every city identifier outside the reference table, the
aggregator falls back to base 0.5 (so blue_ratio is the clamp of
0.5 + 0.015 × event_count + noise) and the historical projector falls
back to trend 0.02; neither raises an error. -/
theorem unknown_city_defaults (city_id : String) (nasa_events : List JVal) (w : ℚ)
    (h : city_id ∉ (["lima", "huanuco", "cusco", "arequipa"] : List String)) :
    base_data_get city_id = (1/2, 2/100) ∧
    (calculate_pollution_from_nasa city_id nasa_events w).1 =
      max (2/10) (min (8/10) (1/2 + (nasa_events.length : ℚ) * (15/1000) + w)) ∧
    trends_get city_id = 2/100 := by
  simp only [List.mem_cons, List.not_mem_nil, or_false, not_or] at h
  obtain ⟨h1, h2, h3, h4⟩ := h
  have e : base_data_get city_id = (1/2, 2/100) := by
    simp [base_data_get, h1, h2, h3, h4]
  refine ⟨e, ?_, ?_⟩
  · show max (2/10) (min (8/10)
        ((base_data_get city_id).1 + (nasa_events.length : ℚ) * (15/1000) + w)) = _
    rw [e]
  · simp [trends_get, h1, h2, h3, h4]

/-- Witness for `unknown_city_defaults` at city "tokyo". -/
theorem unknown_city_defaults_witness :
    ("tokyo" ∉ (["lima", "huanuco", "cusco", "arequipa"] : List String)) ∧
    (base_data_get "tokyo" = (1/2, 2/100) ∧
     (calculate_pollution_from_nasa "tokyo" [] 0).1 =
       max (2/10) (min (8/10) (1/2 + (([] : List JVal).length : ℚ) * (15/1000) + 0)) ∧
     trends_get "tokyo" = 2/100) :=
  ⟨by decide, unknown_city_defaults "tokyo" [] 0 (by decide)⟩

/-- A deterministic sampler satisfying the `random.randint` contract:
it always returns the lower bound. -/
def witSampler : ℕ → ℕ → ℕ := fun lo _ => lo

/-- Claim C2: the classifier assigns exactly one band — blue_ratio > 0.6
is CRÍTICO with score in [20, 40], 0.45 < blue_ratio ≤ 0.6 is MODERADO
with score in [41, 69], blue_ratio ≤ 0.45 is SALUDABLE with score in
[70, 85] — the three conditions partition the whole input range and the
sampled score lies in the range of the chosen band. -/
theorem classifier_partition (b : ℚ) (rint : ℕ → ℕ → ℕ)
    (hr : ∀ lo hi, lo ≤ hi → lo ≤ rint lo hi ∧ rint lo hi ≤ hi) :
    ((determine_status b rint).1 = "CRÍTICO" ↔ 6/10 < b) ∧
    ((determine_status b rint).1 = "MODERADO" ↔ 45/100 < b ∧ b ≤ 6/10) ∧
    ((determine_status b rint).1 = "SALUDABLE" ↔ b ≤ 45/100) ∧
    ((determine_status b rint).1 = "CRÍTICO" →
      20 ≤ (determine_status b rint).2 ∧ (determine_status b rint).2 ≤ 40) ∧
    ((determine_status b rint).1 = "MODERADO" →
      41 ≤ (determine_status b rint).2 ∧ (determine_status b rint).2 ≤ 69) ∧
    ((determine_status b rint).1 = "SALUDABLE" →
      70 ≤ (determine_status b rint).2 ∧ (determine_status b rint).2 ≤ 85) := by
  have hCM : ("CRÍTICO" : String) ≠ "MODERADO" := by decide
  have hCS : ("CRÍTICO" : String) ≠ "SALUDABLE" := by decide
  have hMC : ("MODERADO" : String) ≠ "CRÍTICO" := by decide
  have hMS : ("MODERADO" : String) ≠ "SALUDABLE" := by decide
  have hSC : ("SALUDABLE" : String) ≠ "CRÍTICO" := by decide
  have hSM : ("SALUDABLE" : String) ≠ "MODERADO" := by decide
  unfold determine_status
  split_ifs with h1 h2
  · exact ⟨⟨fun _ => h1, fun _ => rfl⟩,
      ⟨fun h => (hCM h).elim, fun h => ((not_lt.mpr h.2) h1).elim⟩,
      ⟨fun h => (hCS h).elim, fun h => ((not_lt.mpr (h.trans (by norm_num))) h1).elim⟩,
      fun _ => hr 20 40 (by norm_num),
      fun h => (hCM h).elim,
      fun h => (hCS h).elim⟩
  · exact ⟨⟨fun h => (hMC h).elim, fun h => (h1 h).elim⟩,
      ⟨fun _ => ⟨h2, not_lt.mp h1⟩, fun _ => rfl⟩,
      ⟨fun h => (hMS h).elim, fun h => ((not_lt.mpr h) h2).elim⟩,
      fun h => (hMC h).elim,
      fun _ => hr 41 69 (by norm_num),
      fun h => (hMS h).elim⟩
  · exact ⟨⟨fun h => (hSC h).elim, fun h => (h1 h).elim⟩,
      ⟨fun h => (hSM h).elim, fun h => (h2 h.1).elim⟩,
      ⟨fun _ => not_lt.mp h2, fun _ => rfl⟩,
      fun h => (hSC h).elim,
      fun h => (hSM h).elim,
      fun _ => hr 70 85 (by norm_num)⟩

/-- Witness for `classifier_partition` at blue_ratio = 1/2 with the
lower-bound sampler. -/
theorem classifier_partition_witness :
    (∀ lo hi : ℕ, lo ≤ hi → lo ≤ witSampler lo hi ∧ witSampler lo hi ≤ hi) ∧
    (((determine_status (1/2) witSampler).1 = "CRÍTICO" ↔ (6:ℚ)/10 < 1/2) ∧
     ((determine_status (1/2) witSampler).1 = "MODERADO" ↔
       (45:ℚ)/100 < 1/2 ∧ (1:ℚ)/2 ≤ 6/10) ∧
     ((determine_status (1/2) witSampler).1 = "SALUDABLE" ↔ (1:ℚ)/2 ≤ 45/100) ∧
     ((determine_status (1/2) witSampler).1 = "CRÍTICO" →
       20 ≤ (determine_status (1/2) witSampler).2 ∧
       (determine_status (1/2) witSampler).2 ≤ 40) ∧
     ((determine_status (1/2) witSampler).1 = "MODERADO" →
       41 ≤ (determine_status (1/2) witSampler).2 ∧
       (determine_status (1/2) witSampler).2 ≤ 69) ∧
     ((determine_status (1/2) witSampler).1 = "SALUDABLE" →
       70 ≤ (determine_status (1/2) witSampler).2 ∧
       (determine_status (1/2) witSampler).2 ≤ 85)) :=
  ⟨fun lo _ h => ⟨le_refl lo, h⟩,
   classifier_partition (1/2) witSampler (fun lo _ h => ⟨le_refl lo, h⟩)⟩

/-- Claim C5: the historical projector returns exactly 4 entries for the
years 2020, 2021, 2022, 2023 in ascending order, where the entry for
year y uses years_ago = 2023 - y and has
blue = max(0.1, current_blue - years_ago × trend) and
orange = min(0.8, current_orange + years_ago × trend) rounded to 3
decimal places, with per-city trends lima 0.04, huanuco 0.01,
cusco 0.03, arequipa 0.035. -/
theorem generate_historical_data_spec (city_id : String) (cb co : ℚ) :
    generate_historical_data city_id cb co =
      [ { year := 2020,
          blue_ratio := roundTo3 (max (1/10) (cb - 3 * trends_get city_id)),
          orange_ratio := roundTo3 (min (8/10) (co + 3 * trends_get city_id)) },
        { year := 2021,
          blue_ratio := roundTo3 (max (1/10) (cb - 2 * trends_get city_id)),
          orange_ratio := roundTo3 (min (8/10) (co + 2 * trends_get city_id)) },
        { year := 2022,
          blue_ratio := roundTo3 (max (1/10) (cb - 1 * trends_get city_id)),
          orange_ratio := roundTo3 (min (8/10) (co + 1 * trends_get city_id)) },
        { year := 2023,
          blue_ratio := roundTo3 (max (1/10) (cb - 0 * trends_get city_id)),
          orange_ratio := roundTo3 (min (8/10) (co + 0 * trends_get city_id)) } ] ∧
    (generate_historical_data city_id cb co).map HistEntry.year =
      [2020, 2021, 2022, 2023] ∧
    (generate_historical_data city_id cb co).length = 4 ∧
    List.Chain' (fun a b => a < b)
      ((generate_historical_data city_id cb co).map HistEntry.year) ∧
    trends_get "lima" = 4/100 ∧ trends_get "huanuco" = 1/100 ∧
    trends_get "cusco" = 3/100 ∧ trends_get "arequipa" = 35/1000 := by
  refine ⟨?_, rfl, rfl, ?_, rfl, rfl, rfl, rfl⟩
  · simp only [generate_historical_data, List.map_cons, List.map_nil]
    norm_num
  · show List.Chain' (fun a b => a < b) [2020, 2021, 2022, 2023]
    simp [List.chain'_cons]

/-- Claim C6: the historical projector does not enforce that a projected
pair sums to 1: for city "lima" with current pair (0.2, 0.8) the
year-2020 entry projects to (0.1, 0.8), whose sum is 0.9. -/
theorem historical_sum_not_preserved :
    ∃ (city_id : String) (cb co : ℚ), cb + co = 1 ∧ 2/10 ≤ cb ∧ cb ≤ 8/10 ∧
      ∃ e ∈ generate_historical_data city_id cb co,
        e.blue_ratio + e.orange_ratio ≠ 1 := by
  refine ⟨"lima", 2/10, 8/10, by norm_num, by norm_num, by norm_num, ?_⟩
  have hl : generate_historical_data "lima" (2/10) (8/10) =
      [⟨2020, 1/10, 8/10⟩, ⟨2021, 12/100, 8/10⟩,
       ⟨2022, 16/100, 8/10⟩, ⟨2023, 2/10, 8/10⟩] := by
    norm_num [generate_historical_data, trends_get, roundTo3, roundHalfEven,
      max_def, min_def]
  rw [hl]
  exact ⟨⟨2020, 1/10, 8/10⟩, List.mem_cons_self _ _, by norm_num⟩

/-- Claim C9: projecting zero years back is the identity: for
current_blue in [0.2, 0.8] and current_orange = 1 - current_blue, the
year-2023 entry (index 3) is exactly the rounded current pair, since
neither clamp can bind there. -/
theorem historical_year2023_identity (city_id : String) (cb : ℚ)
    (h1 : 2/10 ≤ cb) (h2 : cb ≤ 8/10) :
    (generate_historical_data city_id cb (1 - cb))[3]? =
      some ⟨2023, roundTo3 cb, roundTo3 (1 - cb)⟩ := by
  have e1 : max (1/10 : ℚ) cb = cb := max_eq_right (by linarith)
  have e2 : min (4/5 : ℚ) (1 - cb) = 1 - cb := min_eq_right (by linarith)
  unfold generate_historical_data
  norm_num [e1, e2]

/-- Witness for `historical_year2023_identity` at city "lima" with
current_blue = 1/2. -/
theorem historical_year2023_identity_witness :
    ((2:ℚ)/10 ≤ 1/2) ∧ ((1:ℚ)/2 ≤ 8/10) ∧
    (generate_historical_data "lima" (1/2) (1 - 1/2))[3]? =
      some ⟨2023, roundTo3 (1/2), roundTo3 (1 - 1/2)⟩ :=
  ⟨by norm_num, by norm_num,
   historical_year2023_identity "lima" (1/2) (by norm_num) (by norm_num)⟩

/-- Whether an APOD outcome takes the failure path of its adapter: an
exception anywhere in the try block, or a non-200 status. -/
def ApodOutcome.failed : ApodOutcome → Bool
  | .failure => true
  | .http status _ => status != 200

/-- Whether an EONET outcome takes the failure path of its adapter. -/
def EventsOutcome.failed : EventsOutcome → Bool
  | .failure => true
  | .http status _ => status != 200

/-- Whether a NEO-feed outcome takes the failure path of its adapter. -/
def NeoOutcome.failed : NeoOutcome → Bool
  | .failure => true
  | .http status _ => status != 200

/-- Claim C3, counterexample: on upstream failure the event adapter
returns a bare empty list that carries no success or availability flag
at all, so its failure value is not a record with a flag set to false. -/
theorem events_failure_has_no_flag :
    get_nasa_events EventsOutcome.failure = [] ∧
    (JVal.arr (get_nasa_events EventsOutcome.failure)).hasField "success" = false ∧
    (JVal.arr (get_nasa_events EventsOutcome.failure)).hasField "available" = false :=
  ⟨rfl, rfl, rfl⟩

/-- Claim C3, amended: on any failure (exception, timeout, or non-200
status) each adapter never raises and returns its fixed sentinel: the
astronomy-picture adapter a record whose only field is success = false,
the near-earth-object adapter a record with success = false and
count = 0, and the event adapter an empty list without any flag. -/
theorem adapters_fail_to_sentinel :
    (∀ o : ApodOutcome, o.failed = true →
      get_nasa_apod o = JVal.obj [("success", JVal.bool false)]) ∧
    (∀ o : EventsOutcome, o.failed = true → get_nasa_events o = []) ∧
    (∀ (today : String) (o : NeoOutcome), o.failed = true →
      get_asteroid_data today o =
        JVal.obj [("success", JVal.bool false), ("count", JVal.num 0)]) := by
  refine ⟨?_, ?_, ?_⟩
  · intro o ho
    cases o with
    | failure => rfl
    | http status data =>
      have hs : status ≠ 200 := by simpa [ApodOutcome.failed] using ho
      simp [get_nasa_apod, hs]
  · intro o ho
    cases o with
    | failure => rfl
    | http status events =>
      have hs : status ≠ 200 := by simpa [EventsOutcome.failed] using ho
      simp [get_nasa_events, hs]
  · intro today o ho
    cases o with
    | failure => rfl
    | http status neo =>
      have hs : status ≠ 200 := by simpa [NeoOutcome.failed] using ho
      simp [get_asteroid_data, hs]

/-- Witness for `adapters_fail_to_sentinel`: the exception outcome of
the APOD and NEO adapters and a 404 response of the event adapter. -/
theorem adapters_fail_to_sentinel_witness :
    ApodOutcome.failure.failed = true ∧
    get_nasa_apod ApodOutcome.failure = JVal.obj [("success", JVal.bool false)] ∧
    (EventsOutcome.http 404 []).failed = true ∧
    get_nasa_events (EventsOutcome.http 404 []) = [] ∧
    NeoOutcome.failure.failed = true ∧
    get_asteroid_data "2023-06-01" NeoOutcome.failure =
      JVal.obj [("success", JVal.bool false), ("count", JVal.num 0)] :=
  ⟨rfl, adapters_fail_to_sentinel.1 ApodOutcome.failure rfl,
   rfl, adapters_fail_to_sentinel.2.1 (EventsOutcome.http 404 []) rfl,
   rfl, adapters_fail_to_sentinel.2.2 "2023-06-01" NeoOutcome.failure rfl⟩

/-- Claim C4: /api/analyze/<city_id> returns HTTP 404 with body
error = "Ciudad no encontrada" for every identifier outside
the set of lima, huanuco, cusco, arequipa, and for every identifier
inside it does not take that error branch (it answers 200). -/
theorem analyze_city_unknown_404 (city_id : String) (o : RequestOracles) :
    if city_id ∈ (["lima", "huanuco", "cusco", "arequipa"] : List String) then
      (analyze_city city_id o).1 = 200
    else
      analyze_city city_id o =
        (404, JVal.obj [("error", JVal.str "Ciudad no encontrada")]) := by
  by_cases h : city_id ∈ (["lima", "huanuco", "cusco", "arequipa"] : List String)
  · rw [if_pos h]
    fin_cases h <;> rfl
  · rw [if_neg h]
    simp only [List.mem_cons, List.not_mem_nil, or_false, not_or] at h
    obtain ⟨h1, h2, h3, h4⟩ := h
    have e : lookupCity city_id = none := by
      simp [lookupCity, PERU_CITIES, List.find?,
        Ne.symm h1, Ne.symm h2, Ne.symm h3, Ne.symm h4]
    simp [analyze_city, e]

/-- A concrete oracle bundle used by witnesses: every upstream call
fails, all random draws are fixed. -/
def sampleOracles : RequestOracles :=
  { events := EventsOutcome.failure, apod := ApodOutcome.failure,
    imagery := ImageryOutcome.failure, neo := NeoOutcome.failure,
    today := "2023-06-01", mars_temp := -50, mars_season := "Verano",
    mars_pressure := 700, weather_impact := 0, rint := witSampler,
    now := "2023-06-01 00:00:00" }

/-- Witness for `analyze_city_unknown_404` at the unknown identifier
"paris" with the failing-upstream oracles. -/
theorem analyze_city_unknown_404_witness :
    if "paris" ∈ (["lima", "huanuco", "cusco", "arequipa"] : List String) then
      (analyze_city "paris" sampleOracles).1 = 200
    else
      analyze_city "paris" sampleOracles =
        (404, JVal.obj [("error", JVal.str "Ciudad no encontrada")]) :=
  analyze_city_unknown_404 "paris" sampleOracles

/-- Claim C10: all four entries of a single /api/cities response carry
the same events_affecting value, namely the length of the one shared
event-adapter result; the response has exactly 4 entries, one per
reference-table city in order, and every status is one of CRÍTICO,
MODERADO, SALUDABLE. -/
theorem get_cities_shape (eo : EventsOutcome) (noise : String → ℚ)
    (rint : String → ℕ → ℕ → ℕ) :
    (get_cities eo noise rint).length = 4 ∧
    (get_cities eo noise rint).map CityEntry.id =
      ["lima", "huanuco", "cusco", "arequipa"] ∧
    ∀ e ∈ get_cities eo noise rint,
      e.events_affecting = (get_nasa_events eo).length ∧
      e.status ∈ (["CRÍTICO", "MODERADO", "SALUDABLE"] : List String) := by
  refine ⟨rfl, rfl, ?_⟩
  intro e he
  simp only [get_cities, PERU_CITIES, List.map_cons, List.map_nil, List.mem_cons,
    List.not_mem_nil, or_false] at he
  rcases he with rfl | rfl | rfl | rfl
  all_goals refine ⟨rfl, ?_⟩
  all_goals show (determine_status _ _).1 ∈ _
  all_goals unfold determine_status
  all_goals split_ifs <;> simp

/-- Witness for `get_cities_shape` with a failed event fetch and fixed
samplers. -/
theorem get_cities_shape_witness :
    (get_cities EventsOutcome.failure (fun _ => 0) (fun _ => witSampler)).length = 4 ∧
    (get_cities EventsOutcome.failure (fun _ => 0) (fun _ => witSampler)).map CityEntry.id =
      ["lima", "huanuco", "cusco", "arequipa"] ∧
    ∀ e ∈ get_cities EventsOutcome.failure (fun _ => 0) (fun _ => witSampler),
      e.events_affecting = (get_nasa_events EventsOutcome.failure).length ∧
      e.status ∈ (["CRÍTICO", "MODERADO", "SALUDABLE"] : List String) :=
  get_cities_shape EventsOutcome.failure (fun _ => 0) (fun _ => witSampler)

end LightPollution
